import Mathlib

/-!
Verification of the quotes/authors HTTP API (src/main.py).

The embedding translates the Python source into Lean:
* JSON values are the inductive `JVal`; Python dicts are ordered association
  lists with `dictSet` modelling `d[k] = v` (overwrite in place, append when
  the key is new) and `dictGet` modelling lookup.
* `APIException` and its four concrete kinds mirror the exception classes of
  main.py lines 22-53; `APIException.to_dict` mirrors lines 29-33.
* The SQLite store is `DB`: lists of `Author` and `Quote` rows plus the next
  autoincrement primary keys.  `crud_author_get_by_name`, `crud_author_create`,
  `crud_quote_create` mirror the CRUD classes of main.py lines 169-217.
* `pySplitChars` implements the Python builtin `str.split` with the single
  character separator, here fixed to the space character: it splits at every
  occurrence of the separator and keeps empty pieces, and the split of the
  empty string is a singleton list holding the empty string.
* `process_author` mirrors the marshmallow pre_load hook
  `QuoteSchema.process_author` (main.py lines 148-157).  When the author value
  is a truthy string whose split does not have exactly two pieces, the Python
  tuple unpacking `first, last = author_name.split(" ")` raises ValueError,
  modelled as `LoadErr.valueError`.
* `validateLoaded` mirrors the marshmallow load of `QuoteSchema` (lines
  140-144): `content` is required and validated by `must_not_be_blank`, the
  nested `author` value is validated by `must_not_be_blank` (the empty dict is
  falsy), and - because the schema never overrides the marshmallow 3 default
  unknown-field policy RAISE, which webargs leaves in effect for the json
  location - every input key other than `content` and `author` (including the
  dump-only `id` and `posted_at`) produces an Unknown field error.
* `postQuote` is the POST /quotes/ pipeline: webargs runs the schema load
  before the view; a ValidationError becomes a 422 which the errorhandler at
  main.py lines 73-76 re-raises as `InvalidPayload` (status 400) carrying the
  field-to-messages mapping, while any other exception reaches the Flask 500
  handler (lines 79-83) and becomes the generic `ServerErrorException`
  envelope.
* `Quote.posted_at`: in main.py line 114 the default argument
  `posted_at=datetime.datetime.utcnow()` is evaluated once, when the class
  body is executed at module import; every insert that omits `posted_at`
  therefore stores that single import-time value.  The import-time clock value
  is the `importTime` parameter threaded through the quote-creating
  definitions, and timestamps are modelled as natural numbers.
-/

namespace QuotesApp

/-- JSON-like values produced by jsonify. -/
inductive JVal where
  | str (s : String)
  | num (n : Nat)
  | obj (fields : List (String × JVal))
  | arr (elems : List JVal)
  | null

/-- Python dict assignment `d[k] = v`: overwrite the value in place when the
key is present, otherwise append the new pair. -/
def dictSet : List (String × JVal) → String → JVal → List (String × JVal)
  | [], k, v => [(k, v)]
  | (k', v') :: d, k, v =>
    if k' = k then (k, v) :: d else (k', v') :: dictSet d k v

/-- Python dict lookup `d.get(k)`. -/
def dictGet (d : List (String × JVal)) (k : String) : Option JVal :=
  (d.find? (fun p => p.1 == k)).map (fun p => p.2)

/-- Whether a JSON value is a string. -/
def JVal.isStr : JVal → Bool
  | .str _ => true
  | _ => false

/-- main.py lines 22-33.  `payload` is the optional dict argument, with `[]`
standing for Python None (`dict(self.payload or ())` is then empty). -/
structure APIException where
  message : JVal
  status_code : Nat
  payload : List (String × JVal)

/-- main.py lines 29-33: build the error envelope, writing `message` and then
`status` into a copy of the payload. -/
def APIException.to_dict (e : APIException) : List (String × JVal) :=
  dictSet (dictSet e.payload "message" e.message) "status" (.str "error")

/-- main.py lines 36-38. -/
def InvalidPayload (message : JVal) (payload : List (String × JVal)) : APIException :=
  { message := message, status_code := 400, payload := payload }

/-- main.py lines 41-43. -/
def BusinessException (message : JVal) (payload : List (String × JVal)) : APIException :=
  { message := message, status_code := 400, payload := payload }

/-- main.py lines 46-48. -/
def NotFoundException (message : JVal) (payload : List (String × JVal)) : APIException :=
  { message := message, status_code := 404, payload := payload }

/-- main.py lines 51-53. -/
def ServerErrorException (message : JVal) (payload : List (String × JVal)) : APIException :=
  { message := message, status_code := 500, payload := payload }

/-- The four typed failure kinds of the error taxonomy. -/
inductive FailureKind where
  | invalidPayload
  | businessRule
  | notFound
  | serverError

/-- Raise a failure of the given kind with a message and optional payload. -/
def FailureKind.mkException : FailureKind → JVal → List (String × JVal) → APIException
  | .invalidPayload, m, p => InvalidPayload m p
  | .businessRule, m, p => BusinessException m p
  | .notFound, m, p => NotFoundException m p
  | .serverError, m, p => ServerErrorException m p

/-- main.py lines 62-65: render any APIException as (status code, envelope). -/
def handle_exception (e : APIException) : Nat × JVal :=
  (e.status_code, .obj e.to_dict)

/-- A response together with what the server logged while producing it. -/
structure LoggedResponse where
  log : List String
  status : Nat
  body : List (String × JVal)

/-- main.py lines 79-83: the Flask 500 handler.  It logs the unknown
exception and its traceback server-side and answers with the generic
`ServerErrorException` envelope. -/
def handle_general_exception (errMessage errTrace : String) : LoggedResponse :=
  { log := ["Unknown Exception: " ++ errMessage, errTrace],
    status := (ServerErrorException (.str "Something went wrong.") []).status_code,
    body := (ServerErrorException (.str "Something went wrong.") []).to_dict }

/-- main.py lines 89-100: an author row. -/
structure Author where
  id : Nat
  first : String
  last : String
deriving DecidableEq

/-- main.py lines 103-118: a quote row (timestamps as naturals). -/
structure Quote where
  id : Nat
  content : String
  author_id : Nat
  posted_at : Nat
deriving DecidableEq

/-- The relational store: the rows plus the next autoincrement ids. -/
structure DB where
  authors : List Author
  quotes : List Quote
  nextAuthorId : Nat
  nextQuoteId : Nat
deriving DecidableEq

/-- The freshly created database. -/
def dbEmpty : DB :=
  { authors := [], quotes := [], nextAuthorId := 1, nextQuoteId := 1 }

/-- main.py lines 173-174: `CRUDBase.get` filtered on the primary key. -/
def crud_author_get (st : DB) (pk : Nat) : Option Author :=
  st.authors.find? (fun a => a.id == pk)

/-- main.py lines 173-174 for quotes. -/
def crud_quote_get (st : DB) (pk : Nat) : Option Quote :=
  st.quotes.find? (fun q => q.id == pk)

/-- main.py lines 176-177: offset/limit listing. -/
def crud_get_multi {α : Type} (skip limit : Nat) (rows : List α) : List α :=
  (rows.drop skip).take limit

/-- main.py lines 188-193: exact match on both name columns. -/
def crud_author_get_by_name (st : DB) (first last : String) : Option Author :=
  st.authors.find? (fun a => a.first == first && a.last == last)

/-- The structured author value produced by the pre_load hook. -/
structure AuthorIn where
  first : String
  last : String
deriving DecidableEq

/-- main.py lines 179-184 with the Author constructor of lines 94-100:
insert a new author row, the primary key assigned by the store. -/
def crud_author_create (st : DB) (a : AuthorIn) : Author × DB :=
  let row : Author := { id := st.nextAuthorId, first := a.first, last := a.last }
  (row, { st with authors := st.authors ++ [row], nextAuthorId := st.nextAuthorId + 1 })

/-- main.py lines 209-214 with the Quote constructor of lines 110-118: the
view never passes `posted_at`, so the stored timestamp is the default
argument value, which Python computed once at class definition time - the
module import time, never the insertion time. -/
def crud_quote_create (importTime : Nat) (st : DB) (content : String) (author : Author) :
    Quote × DB :=
  let row : Quote :=
    { id := st.nextQuoteId, content := content, author_id := author.id,
      posted_at := importTime }
  (row, { st with quotes := st.quotes ++ [row], nextQuoteId := st.nextQuoteId + 1 })

/-- Python `str.split` with the space separator, on the character list: split
at every space and keep empty pieces. -/
def pySplitChars : List Char → List (List Char)
  | [] => [[]]
  | c :: cs =>
    if c = ' ' then [] :: pySplitChars cs
    else
      match pySplitChars cs with
      | [] => [[c]]
      | t :: ts => (c :: t) :: ts

/-- Python `s.split(" ")`. -/
def pySplit (s : String) : List String :=
  (pySplitChars s.data).map List.asString

/-- The JSON request body for POST /quotes/: the `content` and `author`
fields when present (the author given as the full-name string, as the view
expects), and the names of all remaining top-level keys, including the
dump-only `id` and `posted_at` when the client supplies them. -/
structure QuoteRequest where
  content : Option String
  author : Option String
  extra : List String
deriving DecidableEq

/-- The body after the pre_load hook: `author` replaced by the structured
value, `none` standing for the empty dict the hook substitutes for a falsy
author. -/
structure NormRequest where
  content : Option String
  author : Option AuthorIn
  extra : List String
deriving DecidableEq

/-- How a schema load fails: an uncaught ValueError from the pre_load tuple
unpacking, or a marshmallow ValidationError carrying field messages. -/
inductive LoadErr where
  | valueError
  | validationError (msgs : List (String × String))
deriving DecidableEq

/-- The validated, typed record the load produces on success. -/
structure LoadedQuote where
  content : String
  author : AuthorIn
deriving DecidableEq

/-- main.py lines 148-157: if the author value is truthy, split it on the
space character and unpack into first and last - Python raises ValueError
unless the split has exactly two pieces - else substitute the empty dict. -/
def process_author (r : QuoteRequest) : Except LoadErr NormRequest :=
  match r.author with
  | none => .ok { content := r.content, author := none, extra := r.extra }
  | some s =>
    if s = "" then
      .ok { content := r.content, author := none, extra := r.extra }
    else
      match pySplit s with
      | [f, l] => .ok { content := r.content, author := some { first := f, last := l }, extra := r.extra }
      | _ => .error .valueError

/-- Whether the pre_load hook runs without raising. -/
def preloadOk (r : QuoteRequest) : Bool :=
  match process_author r with
  | .ok _ => true
  | .error _ => false

/-- The field-level validation of `QuoteSchema.load` (main.py lines 140-144):
`content` is required and must not be blank, the nested author value must not
be blank (the empty dict is falsy), and unknown keys - everything beyond
`content` and `author`, the dump-only fields included - are errors under the
marshmallow 3 default unknown policy RAISE.  Errors are collected and
reported together, marshmallow style. -/
def loadErrors (n : NormRequest) : List (String × String) :=
  n.extra.map (fun k => (k, "Unknown field."))
    ++ (match n.content with
        | none => [("content", "Missing data for required field.")]
        | some c => if c = "" then [("content", "Data not provided.")] else [])
    ++ (match n.author with
        | none => [("author", "Data not provided.")]
        | some _ => [])

def validateLoaded (n : NormRequest) : Except (List (String × String)) LoadedQuote :=
  match n.content, n.author, n.extra with
  | some c, some a, [] =>
    if c = "" then .error (loadErrors n) else .ok { content := c, author := a }
  | _, _, _ => .error (loadErrors n)

/-- The full `quote_schema.load`: pre_load hook, then field validation. -/
def quoteSchemaLoad (r : QuoteRequest) : Except LoadErr LoadedQuote :=
  match process_author r with
  | .error e => .error e
  | .ok n =>
    match validateLoaded n with
    | .error msgs => .error (.validationError msgs)
    | .ok lq => .ok lq

/-- main.py lines 287-299: the view body, after webargs validated the body.
Resolve the author by exact name match, create the row on a miss, then
insert the quote referencing the resolved identity. -/
def new_quote (importTime : Nat) (st : DB) (args : LoadedQuote) : Quote × DB :=
  match crud_author_get_by_name st args.author.first args.author.last with
  | some author => crud_quote_create importTime st args.content author
  | none =>
    let created := crud_author_create st args.author
    crud_quote_create importTime created.2 args.content created.1

/-- The marshmallow messages dict `{field: [message, ...]}` as JSON. -/
def msgsToJVal (msgs : List (String × String)) : JVal :=
  .obj (msgs.map (fun p => (p.1, .arr [.str p.2])))

/-- main.py lines 130-131: the derived display name. -/
def format_name (a : Author) : String :=
  a.last ++ ", " ++ a.first

/-- `AuthorSchema` dump (main.py lines 124-131). -/
def author_dump (a : Author) : List (String × JVal) :=
  [("id", .num a.id), ("first", .str a.first), ("last", .str a.last),
   ("formatted_name", .str (format_name a))]

/-- `QuoteSchema` dump (main.py lines 140-144): the full representation, the
author resolved through the relationship. -/
def quote_dump (st : DB) (q : Quote) : List (String × JVal) :=
  [("id", .num q.id),
   ("author", match crud_author_get st q.author_id with
              | some a => .obj (author_dump a)
              | none => .null),
   ("content", .str q.content),
   ("posted_at", .num q.posted_at)]

/-- `quotes_schema` dump (main.py line 163): the projection restricted by
`only=("id", "content")`. -/
def quote_dump_listItem (q : Quote) : List (String × JVal) :=
  [("id", .num q.id), ("content", .str q.content)]

/-- GET /quotes/ (main.py lines 273-277): default page of the store, each row
dumped through the reduced projection. -/
def get_quotes (st : DB) : List (List (String × JVal)) :=
  (crud_get_multi 0 5 st.quotes).map quote_dump_listItem

/-- main.py lines 236-243: the lookup decorator around the author view.  The
wrapped handler runs only when the row exists. -/
def get_author_by_pk (handler : Author → Nat × JVal) (st : DB) (pk : Nat) : Nat × JVal :=
  match crud_author_get st pk with
  | none => handle_exception (NotFoundException (.str "Author Not Found") [])
  | some a => handler a

/-- GET /authors/{id} (main.py lines 266-270). -/
def get_author_endpoint (st : DB) (pk : Nat) : Nat × JVal :=
  get_author_by_pk (fun a => (200, .obj (author_dump a))) st pk

/-- GET /quotes/{id} (main.py lines 280-284). -/
def get_quote_endpoint (st : DB) (pk : Nat) : Nat × JVal :=
  match crud_quote_get st pk with
  | none => handle_exception (NotFoundException (.str "Quote Not Found") [])
  | some q => (200, .obj (quote_dump st q))

/-- POST /quotes/ (main.py lines 287-299 together with the error handlers):
a ValidationError from the load surfaces as webargs 422, which the handler at
lines 73-76 re-raises as InvalidPayload with the field messages, giving a
400; an uncaught ValueError from the pre_load hook reaches the Flask 500
handler and yields the generic server-error envelope; on success the view
returns the created quote dumped through the full schema.  The store is
returned unchanged on every failure, since the load runs before the view
body performs any insert. -/
def postQuote (importTime : Nat) (st : DB) (r : QuoteRequest) : (Nat × JVal) × DB :=
  match quoteSchemaLoad r with
  | .error .valueError =>
    (((handle_general_exception "ValueError" "traceback").status,
      .obj (handle_general_exception "ValueError" "traceback").body), st)
  | .error (.validationError msgs) =>
    (handle_exception (InvalidPayload (msgsToJVal msgs) []), st)
  | .ok args =>
    let created := new_quote importTime st args
    ((200, .obj (quote_dump created.2 created.1)), created.2)

/-! Helper lemmas about the embedded operations. -/

theorem dictGet_dictSet_self (d : List (String × JVal)) (k : String) (v : JVal) :
    dictGet (dictSet d k v) k = some v := by
  induction d with
  | nil => simp [dictSet, dictGet, List.find?]
  | cons p d ih =>
    obtain ⟨k', v'⟩ := p
    by_cases h : k' = k
    · simp [dictSet, dictGet, List.find?, h]
    · simpa [dictSet, dictGet, List.find?, h] using ih

theorem dictGet_dictSet_ne (d : List (String × JVal)) (k : String) (v : JVal)
    (key : String) (h : key ≠ k) :
    dictGet (dictSet d k v) key = dictGet d key := by
  induction d with
  | nil =>
    unfold dictSet dictGet
    rw [List.find?_cons_of_neg _ (by simp [Ne.symm h])]
  | cons p d ih =>
    obtain ⟨k', v'⟩ := p
    by_cases hk : k' = k
    · subst hk
      have h1 : dictSet ((k', v') :: d) k' v = (k', v) :: d := by simp [dictSet]
      rw [h1]
      unfold dictGet
      rw [List.find?_cons_of_neg _ (by simp [Ne.symm h]),
        List.find?_cons_of_neg _ (by simp [Ne.symm h])]
    · have h1 : dictSet ((k', v') :: d) k v = (k', v') :: dictSet d k v := by
        simp [dictSet, hk]
      rw [h1]
      by_cases hkey : k' = key
      · subst hkey
        unfold dictGet
        rw [List.find?_cons_of_pos _ (by simp), List.find?_cons_of_pos _ (by simp)]
      · unfold dictGet
        rw [List.find?_cons_of_neg _ (by simp [hkey]), List.find?_cons_of_neg _ (by simp [hkey])]
        exact ih

theorem pySplitChars_ne_nil (cs : List Char) : pySplitChars cs ≠ [] := by
  induction cs with
  | nil => simp [pySplitChars]
  | cons c cs ih =>
    by_cases h : c = ' '
    · simp [pySplitChars, h]
    · simp only [pySplitChars, h, if_false]
      cases hcs : pySplitChars cs with
      | nil => simp
      | cons t ts => simp

theorem pySplitChars_length (cs : List Char) :
    (pySplitChars cs).length = cs.count ' ' + 1 := by
  induction cs with
  | nil => simp [pySplitChars]
  | cons c cs ih =>
    by_cases h : c = ' '
    · simp [pySplitChars, h, List.count_cons, ih]
    · simp only [pySplitChars, h, if_false]
      cases hcs : pySplitChars cs with
      | nil => exact absurd hcs (pySplitChars_ne_nil cs)
      | cons t ts =>
        rw [hcs] at ih
        simp only [List.length_cons] at ih ⊢
        simp [List.count_cons, h, ih]

theorem pySplit_pair_of_one_space (s : String) (h : s.data.count ' ' = 1) :
    ∃ f g : String, pySplit s = [f, g] := by
  have hlen : (pySplitChars s.data).length = 2 := by
    rw [pySplitChars_length, h]
  cases hs : pySplitChars s.data with
  | nil => simp [hs] at hlen
  | cons t ts =>
    cases ts with
    | nil => simp [hs] at hlen
    | cons t2 ts2 =>
      cases ts2 with
      | nil => exact ⟨t.asString, t2.asString, by simp [pySplit, hs]⟩
      | cons t3 ts3 => simp [hs] at hlen

theorem preloadOk_iff (r : QuoteRequest) :
    preloadOk r = true ↔ ∃ n, process_author r = .ok n := by
  unfold preloadOk
  cases h : process_author r with
  | ok n => simp
  | error e => simp

theorem process_author_error_shape (r : QuoteRequest) (e : LoadErr)
    (h : process_author r = .error e) : e = .valueError := by
  unfold process_author at h
  split at h
  · exact Except.noConfusion h
  · split at h
    · exact Except.noConfusion h
    · split at h
      · exact Except.noConfusion h
      · exact (Except.error.inj h).symm

theorem preloadOk_eq_false (r : QuoteRequest) (h : preloadOk r = false) :
    process_author r = .error .valueError := by
  unfold preloadOk at h
  split at h
  · exact Bool.noConfusion h
  · next e heq => rw [heq, process_author_error_shape r e heq]

theorem process_author_ok_fields (r : QuoteRequest) (n : NormRequest)
    (h : process_author r = .ok n) : n.content = r.content ∧ n.extra = r.extra := by
  unfold process_author at h
  split at h
  · injection h with h2
    subst h2
    exact ⟨rfl, rfl⟩
  · split at h
    · injection h with h2
      subst h2
      exact ⟨rfl, rfl⟩
    · split at h
      · injection h with h2
        subst h2
        exact ⟨rfl, rfl⟩
      · exact Except.noConfusion h

theorem process_author_falsy (r : QuoteRequest) (h : r.author = none ∨ r.author = some "") :
    process_author r = .ok { content := r.content, author := none, extra := r.extra } := by
  rcases h with h | h <;> simp [process_author, h]

theorem validateLoaded_ok_inv (n : NormRequest) (lq : LoadedQuote)
    (h : validateLoaded n = .ok lq) :
    n.content = some lq.content ∧ lq.content ≠ "" ∧ n.author = some lq.author ∧ n.extra = [] := by
  unfold validateLoaded at h
  split at h
  next c a hc ha hx =>
    split at h
    · exact Except.noConfusion h
    next hce =>
      injection h with h2
      subst h2
      exact ⟨hc, hce, ha, hx⟩
  next => exact Except.noConfusion h

theorem validateLoaded_error_of_bad (n : NormRequest)
    (h : n.content = none ∨ n.content = some "" ∨ n.author = none ∨ n.extra ≠ []) :
    ∃ msgs, validateLoaded n = .error msgs := by
  cases hv : validateLoaded n with
  | error m => exact ⟨m, rfl⟩
  | ok lq =>
    exfalso
    obtain ⟨h1, h2, h3, h4⟩ := validateLoaded_ok_inv n lq hv
    rcases h with h | h | h | h
    · rw [h] at h1; cases h1
    · rw [h] at h1
      exact h2 (Option.some.inj h1).symm
    · rw [h] at h3; cases h3
    · exact h h4

theorem quoteSchemaLoad_error_validation (r : QuoteRequest) (n : NormRequest)
    (hpa : process_author r = .ok n)
    (hbad : n.content = none ∨ n.content = some "" ∨ n.author = none ∨ n.extra ≠ []) :
    ∃ msgs, quoteSchemaLoad r = .error (.validationError msgs) := by
  obtain ⟨msgs, hv⟩ := validateLoaded_error_of_bad n hbad
  exact ⟨msgs, by simp [quoteSchemaLoad, hpa, hv]⟩

theorem postQuote_invalid (t : Nat) (st : DB) (r : QuoteRequest)
    (msgs : List (String × String))
    (h : quoteSchemaLoad r = .error (.validationError msgs)) :
    postQuote t st r = (handle_exception (InvalidPayload (msgsToJVal msgs) []), st) := by
  simp [postQuote, h, handle_exception]

theorem postQuote_valueErr (t : Nat) (st : DB) (r : QuoteRequest)
    (h : quoteSchemaLoad r = .error .valueError) :
    postQuote t st r
      = ((500, .obj [("message", .str "Something went wrong."), ("status", .str "error")]), st) := by
  simp [postQuote, h, handle_general_exception, ServerErrorException, APIException.to_dict,
    dictSet]

theorem crud_author_get_by_name_some (st : DB) (f l : String) (a : Author)
    (h : crud_author_get_by_name st f l = some a) :
    a ∈ st.authors ∧ a.first = f ∧ a.last = l := by
  refine ⟨List.mem_of_find?_eq_some h, ?_, ?_⟩
  · have hp := List.find?_some h
    simp only [Bool.and_eq_true, beq_iff_eq] at hp
    exact hp.1
  · have hp := List.find?_some h
    simp only [Bool.and_eq_true, beq_iff_eq] at hp
    exact hp.2

theorem new_quote_found (t : Nat) (st : DB) (args : LoadedQuote) (a : Author)
    (h : crud_author_get_by_name st args.author.first args.author.last = some a) :
    new_quote t st args = crud_quote_create t st args.content a := by
  simp [new_quote, h]

theorem new_quote_none (t : Nat) (st : DB) (args : LoadedQuote)
    (h : crud_author_get_by_name st args.author.first args.author.last = none) :
    new_quote t st args
      = crud_quote_create t (crud_author_create st args.author).2 args.content
          (crud_author_create st args.author).1 := by
  simp [new_quote, h]

theorem new_quote_spec (t : Nat) (st : DB) (args : LoadedQuote) :
    ∃ a : Author,
      crud_author_get_by_name (new_quote t st args).2 args.author.first args.author.last = some a
      ∧ (new_quote t st args).1.author_id = a.id
      ∧ a.first = args.author.first ∧ a.last = args.author.last
      ∧ a ∈ (new_quote t st args).2.authors
      ∧ (new_quote t st args).1.id = st.nextQuoteId
      ∧ (new_quote t st args).2.nextQuoteId = st.nextQuoteId + 1
      ∧ (new_quote t st args).1.content = args.content
      ∧ (new_quote t st args).1.posted_at = t := by
  cases h : crud_author_get_by_name st args.author.first args.author.last with
  | some a =>
    obtain ⟨hmem, hf, hl⟩ := crud_author_get_by_name_some st _ _ a h
    refine ⟨a, ?_, ?_, hf, hl, ?_, ?_, ?_, ?_, ?_⟩
    · rw [new_quote_found t st args a h]
      simpa [crud_quote_create, crud_author_get_by_name] using h
    all_goals simp [new_quote_found t st args a h, crud_quote_create, hmem]
  | none =>
    refine ⟨{ id := st.nextAuthorId, first := args.author.first, last := args.author.last },
      ?_, ?_, rfl, rfl, ?_, ?_, ?_, ?_, ?_⟩
    · rw [new_quote_none t st args h]
      unfold crud_author_get_by_name at h ⊢
      simp only [crud_quote_create, crud_author_create]
      rw [List.find?_append, h]
      simp
    all_goals simp [new_quote_none t st args h, crud_quote_create, crud_author_create]

theorem get_by_name_after (t : Nat) (st : DB) (args : LoadedQuote) (f' l' : String)
    (hfresh : crud_author_get_by_name st f' l' = none)
    (hne : ¬(args.author.first = f' ∧ args.author.last = l')) :
    crud_author_get_by_name (new_quote t st args).2 f' l' = none := by
  cases h : crud_author_get_by_name st args.author.first args.author.last with
  | some a =>
    simpa [new_quote_found t st args a h, crud_quote_create, crud_author_get_by_name]
      using hfresh
  | none =>
    simp only [new_quote_none t st args h, crud_quote_create, crud_author_create,
      crud_author_get_by_name] at hfresh ⊢
    rw [List.find?_append, hfresh]
    simp only [Option.none_or]
    rw [List.find?_cons_of_neg _ (by simp [hne]), List.find?_nil]

/-- C4 (amended): every failure of one of the four typed kinds is rendered as a
single JSON envelope whose status key holds the string error and whose message
key holds the message the failure was raised with (a string for the typed
defaults, the field-to-errors mapping for schema-validation failures), with the
HTTP status code (400, 404 or 500) determined by the kind; keys of the optional
payload are merged into the envelope but can never override the status or
message fields. -/
theorem error_envelope_shape (k : FailureKind) (m : JVal) (p : List (String × JVal))
    (key : String) (h1 : key ≠ "status") (h2 : key ≠ "message") :
    dictGet (k.mkException m p).to_dict "status" = some (.str "error")
    ∧ dictGet (k.mkException m p).to_dict "message" = some m
    ∧ ((k.mkException m p).status_code = 400 ∨ (k.mkException m p).status_code = 404
        ∨ (k.mkException m p).status_code = 500)
    ∧ dictGet (k.mkException m p).to_dict key = dictGet p key := by
  have hmp : (k.mkException m p).message = m := by
    cases k <;> rfl
  have hpp : (k.mkException m p).payload = p := by
    cases k <;> rfl
  refine ⟨?_, ?_, ?_, ?_⟩
  · unfold APIException.to_dict
    exact dictGet_dictSet_self _ _ _
  · unfold APIException.to_dict
    rw [dictGet_dictSet_ne _ _ _ _ (by decide), hmp, dictGet_dictSet_self]
  · cases k
    · exact Or.inl rfl
    · exact Or.inl rfl
    · exact Or.inr (Or.inl rfl)
    · exact Or.inr (Or.inr rfl)
  · unfold APIException.to_dict
    rw [dictGet_dictSet_ne _ _ _ _ h1, dictGet_dictSet_ne _ _ _ _ h2, hpp]

/-- Witness for the envelope-shape theorem at a concrete failure. -/
theorem error_envelope_shape_witness :
    dictGet ((FailureKind.notFound.mkException (.str "Not Found.") [("detail", .str "x")]).to_dict)
        "status" = some (.str "error")
    ∧ dictGet ((FailureKind.notFound.mkException (.str "Not Found.") [("detail", .str "x")]).to_dict)
        "message" = some (.str "Not Found.")
    ∧ ((FailureKind.notFound.mkException (.str "Not Found.") [("detail", .str "x")]).status_code = 400
        ∨ (FailureKind.notFound.mkException (.str "Not Found.") [("detail", .str "x")]).status_code = 404
        ∨ (FailureKind.notFound.mkException (.str "Not Found.") [("detail", .str "x")]).status_code = 500)
    ∧ dictGet ((FailureKind.notFound.mkException (.str "Not Found.") [("detail", .str "x")]).to_dict)
        "detail" = dictGet [("detail", .str "x")] "detail" :=
  error_envelope_shape .notFound (.str "Not Found.") [("detail", .str "x")] "detail"
    (by decide) (by decide)

/-- C4 counterexample: a schema-validation failure (blank content) is answered
with an envelope whose message value is the field-to-errors object, not a
string, refuting the claim that every envelope carries a message string. -/
theorem error_envelope_counterexample :
    (postQuote 0 dbEmpty { content := some "", author := some "Tim Peters", extra := [] }).1
      = (400, .obj [("message", msgsToJVal [("content", "Data not provided.")]),
          ("status", .str "error")])
    ∧ (msgsToJVal [("content", "Data not provided.")]).isStr = false :=
  ⟨rfl, rfl⟩

/-- C5: the Quote constructor default evaluates utcnow once, at class
definition (module import) time, so every quote stored without an explicit
timestamp carries that one import-time value - two quotes created at different
moments still share it, contradicting assignment at insertion time. -/
theorem posted_at_is_import_time (t : Nat) (st : DB) (a1 a2 : LoadedQuote) :
    (new_quote t st a1).1.posted_at = t
    ∧ (new_quote t (new_quote t st a1).2 a2).1.posted_at = t
    ∧ (new_quote t st a1).1.posted_at = (new_quote t (new_quote t st a1).2 a2).1.posted_at := by
  obtain ⟨_, _, _, _, _, _, _, _, _, h1⟩ := new_quote_spec t st a1
  obtain ⟨_, _, _, _, _, _, _, _, _, h2⟩ := new_quote_spec t (new_quote t st a1).2 a2
  exact ⟨h1, h2, h1.trans h2.symm⟩

/-- C7: GET /quotes/ entries carry exactly the keys id and content - never
author or posted_at - while GET /quotes/id for an existing quote returns the
full representation with the nested author object. -/
theorem quotes_list_projection :
    (∀ (st : DB), ∀ ent ∈ get_quotes st,
      ent.map Prod.fst = ["id", "content"]
      ∧ "author" ∉ ent.map Prod.fst
      ∧ "posted_at" ∉ ent.map Prod.fst)
    ∧ (∀ (st : DB) (pk : Nat) (q : Quote) (a : Author),
        crud_quote_get st pk = some q →
        crud_author_get st q.author_id = some a →
        get_quote_endpoint st pk = (200, .obj (quote_dump st q))
        ∧ (quote_dump st q).map Prod.fst = ["id", "author", "content", "posted_at"]
        ∧ dictGet (quote_dump st q) "author" = some (.obj (author_dump a))) := by
  constructor
  · intro st ent h
    simp only [get_quotes, List.mem_map] at h
    obtain ⟨q, hq, rfl⟩ := h
    exact ⟨rfl, (by decide : "author" ∉ (["id", "content"] : List String)),
      (by decide : "posted_at" ∉ (["id", "content"] : List String))⟩
  · intro st pk q a hq ha
    refine ⟨?_, rfl, ?_⟩
    · unfold get_quote_endpoint
      rw [hq]
    · unfold quote_dump dictGet
      rw [ha]
      rfl

/-- Witness for the projection theorem on a store with one author and one
quote. -/
theorem quotes_list_projection_witness :
    ((quote_dump_listItem { id := 1, content := "Hi", author_id := 1, posted_at := 7 }).map Prod.fst
        = ["id", "content"]
      ∧ "author" ∉ (quote_dump_listItem
          { id := 1, content := "Hi", author_id := 1, posted_at := 7 }).map Prod.fst
      ∧ "posted_at" ∉ (quote_dump_listItem
          { id := 1, content := "Hi", author_id := 1, posted_at := 7 }).map Prod.fst)
    ∧ (get_quote_endpoint
          { authors := [{ id := 1, first := "Tim", last := "Peters" }],
            quotes := [{ id := 1, content := "Hi", author_id := 1, posted_at := 7 }],
            nextAuthorId := 2, nextQuoteId := 2 } 1
        = (200, .obj (quote_dump
            { authors := [{ id := 1, first := "Tim", last := "Peters" }],
              quotes := [{ id := 1, content := "Hi", author_id := 1, posted_at := 7 }],
              nextAuthorId := 2, nextQuoteId := 2 }
            { id := 1, content := "Hi", author_id := 1, posted_at := 7 }))
      ∧ (quote_dump
            { authors := [{ id := 1, first := "Tim", last := "Peters" }],
              quotes := [{ id := 1, content := "Hi", author_id := 1, posted_at := 7 }],
              nextAuthorId := 2, nextQuoteId := 2 }
            { id := 1, content := "Hi", author_id := 1, posted_at := 7 }).map Prod.fst
          = ["id", "author", "content", "posted_at"]
      ∧ dictGet (quote_dump
            { authors := [{ id := 1, first := "Tim", last := "Peters" }],
              quotes := [{ id := 1, content := "Hi", author_id := 1, posted_at := 7 }],
              nextAuthorId := 2, nextQuoteId := 2 }
            { id := 1, content := "Hi", author_id := 1, posted_at := 7 }) "author"
          = some (.obj (author_dump { id := 1, first := "Tim", last := "Peters" }))) := by
  constructor
  · exact quotes_list_projection.1
      { authors := [{ id := 1, first := "Tim", last := "Peters" }],
        quotes := [{ id := 1, content := "Hi", author_id := 1, posted_at := 7 }],
        nextAuthorId := 2, nextQuoteId := 2 }
      (quote_dump_listItem { id := 1, content := "Hi", author_id := 1, posted_at := 7 })
      (List.mem_singleton.mpr rfl)
  · exact quotes_list_projection.2
      { authors := [{ id := 1, first := "Tim", last := "Peters" }],
        quotes := [{ id := 1, content := "Hi", author_id := 1, posted_at := 7 }],
        nextAuthorId := 2, nextQuoteId := 2 }
      1 { id := 1, content := "Hi", author_id := 1, posted_at := 7 }
      { id := 1, first := "Tim", last := "Peters" } rfl rfl

/-- C8: when no author row has the requested primary key, the decorated
GET /authors/id route answers 404 with the Author Not Found envelope, whatever
the wrapped handler would have returned. -/
theorem author_not_found_404 (st : DB) (pk : Nat) (handler : Author → Nat × JVal)
    (h : crud_author_get st pk = none) :
    get_author_by_pk handler st pk
      = (404, .obj [("message", .str "Author Not Found"), ("status", .str "error")])
    ∧ get_author_endpoint st pk
      = (404, .obj [("message", .str "Author Not Found"), ("status", .str "error")]) := by
  constructor
  · unfold get_author_by_pk
    rw [h]
    rfl
  · unfold get_author_endpoint get_author_by_pk
    rw [h]
    rfl

/-- Witness: looking up author 1 in the empty store yields the 404 envelope. -/
theorem author_not_found_404_witness :
    get_author_by_pk (fun _ => (200, .null)) dbEmpty 1
      = (404, .obj [("message", .str "Author Not Found"), ("status", .str "error")])
    ∧ get_author_endpoint dbEmpty 1
      = (404, .obj [("message", .str "Author Not Found"), ("status", .str "error")]) :=
  author_not_found_404 dbEmpty 1 (fun _ => (200, .null)) rfl

/-- C9: an exception that is none of the four typed kinds is logged with its
message and trace server-side and answered with the generic 500
ServerErrorException envelope, which is a fixed value revealing nothing of the
internal exception. -/
theorem unclassified_exception_boundary (m tr : String) :
    (handle_general_exception m tr).status = 500
    ∧ (handle_general_exception m tr).body
        = (ServerErrorException (.str "Something went wrong.") []).to_dict
    ∧ (handle_general_exception m tr).body
        = [("message", .str "Something went wrong."), ("status", .str "error")]
    ∧ ("Unknown Exception: " ++ m) ∈ (handle_general_exception m tr).log
    ∧ tr ∈ (handle_general_exception m tr).log := by
  refine ⟨rfl, rfl, rfl, ?_, ?_⟩ <;> simp [handle_general_exception]

/-- C1: when the author field is a single string with exactly one space, the
pre-validation transform splits it into two tokens and the created or resolved
author row carries exactly those tokens as first and last name. -/
theorem author_single_space_split (t : Nat) (st : DB) (r : QuoteRequest) (s c : String)
    (ha : r.author = some s) (hone : s.data.count ' ' = 1)
    (hcontent : r.content = some c) (hc : c ≠ "") (hx : r.extra = []) :
    ∃ f g q stOut a, pySplit s = [f, g]
      ∧ postQuote t st r = ((200, .obj (quote_dump stOut q)), stOut)
      ∧ a ∈ stOut.authors ∧ a.id = q.author_id ∧ a.first = f ∧ a.last = g := by
  obtain ⟨f, g, hsp⟩ := pySplit_pair_of_one_space s hone
  have hs : s ≠ "" := by
    intro he
    rw [he] at hone
    exact absurd hone (by decide)
  have hpa : process_author r
      = .ok { content := r.content, author := some { first := f, last := g }, extra := r.extra } := by
    simp only [process_author, ha]
    rw [if_neg hs, hsp]
  have hv : validateLoaded
      { content := r.content, author := some { first := f, last := g }, extra := r.extra }
      = .ok { content := c, author := { first := f, last := g } } := by
    rw [hcontent, hx]
    simp [validateLoaded, hc]
  have hload : quoteSchemaLoad r = .ok { content := c, author := { first := f, last := g } } := by
    simp [quoteSchemaLoad, hpa, hv]
  obtain ⟨a, hfind, hid, hf, hl, hmem, _, _, _, _⟩ :=
    new_quote_spec t st { content := c, author := { first := f, last := g } }
  refine ⟨f, g,
    (new_quote t st { content := c, author := { first := f, last := g } }).1,
    (new_quote t st { content := c, author := { first := f, last := g } }).2,
    a, hsp, ?_, hmem, hid.symm, hf, hl⟩
  simp [postQuote, hload]

/-- Witness for the split theorem on the string Tim Peters. -/
theorem author_single_space_split_witness :
    ∃ f g q stOut a, pySplit "Tim Peters" = [f, g]
      ∧ postQuote 0 dbEmpty { content := some "Hi", author := some "Tim Peters", extra := [] }
          = ((200, .obj (quote_dump stOut q)), stOut)
      ∧ a ∈ stOut.authors ∧ a.id = q.author_id ∧ a.first = f ∧ a.last = g :=
  author_single_space_split 0 dbEmpty
    { content := some "Hi", author := some "Tim Peters", extra := [] }
    "Tim Peters" "Hi" rfl (by decide) rfl (by decide) rfl

/-- C2: two sequential creations with the identical (first, last) pair resolve
to the same author identity - the second call adds no author row - while the
two quotes get distinct identities; the name match being exact and
case-sensitive, a pair differing in any way (case or whitespace included) that
is not already stored instead creates a distinct new author row. -/
theorem author_reuse_exact_match (t : Nat) (st : DB) (c1 c2 c3 f l f' l' : String)
    (hfresh : crud_author_get_by_name st f' l' = none)
    (hne : ¬(f = f' ∧ l = l')) :
    (new_quote t (new_quote t st ⟨c1, ⟨f, l⟩⟩).2 ⟨c2, ⟨f, l⟩⟩).1.author_id
      = (new_quote t st ⟨c1, ⟨f, l⟩⟩).1.author_id
    ∧ (new_quote t (new_quote t st ⟨c1, ⟨f, l⟩⟩).2 ⟨c2, ⟨f, l⟩⟩).2.authors
      = (new_quote t st ⟨c1, ⟨f, l⟩⟩).2.authors
    ∧ (new_quote t (new_quote t st ⟨c1, ⟨f, l⟩⟩).2 ⟨c2, ⟨f, l⟩⟩).1.id
      ≠ (new_quote t st ⟨c1, ⟨f, l⟩⟩).1.id
    ∧ (new_quote t (new_quote t st ⟨c1, ⟨f, l⟩⟩).2 ⟨c3, ⟨f', l'⟩⟩).2.authors
      = (new_quote t st ⟨c1, ⟨f, l⟩⟩).2.authors
        ++ [{ id := (new_quote t st ⟨c1, ⟨f, l⟩⟩).2.nextAuthorId, first := f', last := l' }] := by
  obtain ⟨a, hfind, hid, hf, hl, hmem, hqid, hnq, hcont, hpa⟩ :=
    new_quote_spec t st ⟨c1, ⟨f, l⟩⟩
  have h2 := new_quote_found t (new_quote t st ⟨c1, ⟨f, l⟩⟩).2 ⟨c2, ⟨f, l⟩⟩ a hfind
  refine ⟨?_, ?_, ?_, ?_⟩
  · rw [h2]
    exact hid.symm
  · rw [h2]
    rfl
  · rw [h2]
    simp only [crud_quote_create]
    rw [hnq, hqid]
    omega
  · have hfresh1 : crud_author_get_by_name (new_quote t st ⟨c1, ⟨f, l⟩⟩).2 f' l' = none :=
      get_by_name_after t st ⟨c1, ⟨f, l⟩⟩ f' l' hfresh hne
    rw [new_quote_none t (new_quote t st ⟨c1, ⟨f, l⟩⟩).2 ⟨c3, ⟨f', l'⟩⟩ hfresh1]
    rfl

/-- Witness: reposting for Tim Peters reuses the stored author while posting
for tim Peters (lowercase) creates a second author row. -/
theorem author_reuse_exact_match_witness :
    (new_quote 0 (new_quote 0 dbEmpty ⟨"A", ⟨"Tim", "Peters"⟩⟩).2 ⟨"B", ⟨"Tim", "Peters"⟩⟩).1.author_id
      = (new_quote 0 dbEmpty ⟨"A", ⟨"Tim", "Peters"⟩⟩).1.author_id
    ∧ (new_quote 0 (new_quote 0 dbEmpty ⟨"A", ⟨"Tim", "Peters"⟩⟩).2 ⟨"B", ⟨"Tim", "Peters"⟩⟩).2.authors
      = (new_quote 0 dbEmpty ⟨"A", ⟨"Tim", "Peters"⟩⟩).2.authors
    ∧ (new_quote 0 (new_quote 0 dbEmpty ⟨"A", ⟨"Tim", "Peters"⟩⟩).2 ⟨"B", ⟨"Tim", "Peters"⟩⟩).1.id
      ≠ (new_quote 0 dbEmpty ⟨"A", ⟨"Tim", "Peters"⟩⟩).1.id
    ∧ (new_quote 0 (new_quote 0 dbEmpty ⟨"A", ⟨"Tim", "Peters"⟩⟩).2 ⟨"C", ⟨"tim", "Peters"⟩⟩).2.authors
      = (new_quote 0 dbEmpty ⟨"A", ⟨"Tim", "Peters"⟩⟩).2.authors
        ++ [{ id := (new_quote 0 dbEmpty ⟨"A", ⟨"Tim", "Peters"⟩⟩).2.nextAuthorId,
              first := "tim", last := "Peters" }] :=
  author_reuse_exact_match 0 dbEmpty "A" "B" "C" "Tim" "Peters" "tim" "Peters" rfl (by decide)

/-- C3 (amended): a request with blank or missing content - provided the
author pre-transform itself does not raise, i.e. the author field is absent,
empty, or a string splitting into exactly two tokens - and likewise any
request whose normalized author value is missing or empty, fails with the
InvalidPayload envelope (HTTP 400) and performs no insert. -/
theorem blank_payload_rejected (t : Nat) (st : DB) (r : QuoteRequest)
    (h : ((r.content = none ∨ r.content = some "") ∧ preloadOk r = true)
          ∨ (r.author = none ∨ r.author = some "")) :
    (∃ msgs, postQuote t st r = (handle_exception (InvalidPayload (msgsToJVal msgs) []), st))
    ∧ (postQuote t st r).1.1 = 400
    ∧ (postQuote t st r).2 = st := by
  have hstep : ∃ n, process_author r = .ok n
      ∧ (n.content = none ∨ n.content = some "" ∨ n.author = none ∨ n.extra ≠ []) := by
    rcases h with ⟨hcase, hok⟩ | hauth
    · obtain ⟨n, hn⟩ := (preloadOk_iff r).mp hok
      obtain ⟨hcn, _⟩ := process_author_ok_fields r n hn
      refine ⟨n, hn, ?_⟩
      rcases hcase with hcase | hcase
      · exact Or.inl (hcn.trans hcase)
      · exact Or.inr (Or.inl (hcn.trans hcase))
    · exact ⟨_, process_author_falsy r hauth, Or.inr (Or.inr (Or.inl rfl))⟩
  obtain ⟨n, hn, hbad⟩ := hstep
  obtain ⟨msgs, hload⟩ := quoteSchemaLoad_error_validation r n hn hbad
  have hpq := postQuote_invalid t st r msgs hload
  refine ⟨⟨msgs, hpq⟩, ?_, ?_⟩
  · rw [hpq]
    rfl
  · rw [hpq]

/-- Witness: empty content with a well-formed author string is answered 400
and the store is untouched. -/
theorem blank_payload_rejected_witness :
    (∃ msgs, postQuote 0 dbEmpty { content := some "", author := some "Tim Peters", extra := [] }
        = (handle_exception (InvalidPayload (msgsToJVal msgs) []), dbEmpty))
    ∧ (postQuote 0 dbEmpty { content := some "", author := some "Tim Peters", extra := [] }).1.1 = 400
    ∧ (postQuote 0 dbEmpty { content := some "", author := some "Tim Peters", extra := [] }).2 = dbEmpty :=
  blank_payload_rejected 0 dbEmpty { content := some "", author := some "Tim Peters", extra := [] }
    (Or.inl ⟨Or.inr rfl, rfl⟩)

/-- C3 counterexample: a request with missing content whose author string has
no space is answered 500 (the pre-load ValueError path), not the claimed 400,
though still without an insert. -/
theorem blank_payload_rejected_counterexample :
    (postQuote 0 dbEmpty { content := none, author := some "Cher", extra := [] }).1.1 = 500
    ∧ (postQuote 0 dbEmpty { content := none, author := some "Cher", extra := [] }).1.1 ≠ 400
    ∧ (postQuote 0 dbEmpty { content := none, author := some "Cher", extra := [] }).2 = dbEmpty :=
  ⟨rfl, by decide, rfl⟩

/-- C6 (amended): a request with any field beyond content and author - the
dump-only id and posted_at included - is never silently accepted and leads to
no insert: when the author pre-transform does not itself raise, the schema
load fails under the default unknown-field policy and the request is rejected
with the InvalidPayload envelope (HTTP 400); when the author string makes the
pre-transform raise, the request fails with the generic 500 instead. -/
theorem unknown_fields_rejected (t : Nat) (st : DB) (r : QuoteRequest)
    (hx : r.extra ≠ []) :
    (postQuote t st r).2 = st
    ∧ (postQuote t st r).1.1 ≠ 200
    ∧ (preloadOk r = true →
        ∃ msgs, postQuote t st r = (handle_exception (InvalidPayload (msgsToJVal msgs) []), st)
          ∧ (postQuote t st r).1.1 = 400)
    ∧ (preloadOk r = false → (postQuote t st r).1.1 = 500) := by
  cases hok : preloadOk r with
  | true =>
    obtain ⟨n, hn⟩ := (preloadOk_iff r).mp hok
    obtain ⟨_, hxe⟩ := process_author_ok_fields r n hn
    obtain ⟨msgs, hload⟩ := quoteSchemaLoad_error_validation r n hn
      (Or.inr (Or.inr (Or.inr (by rw [hxe]; exact hx))))
    have hpq := postQuote_invalid t st r msgs hload
    refine ⟨by rw [hpq], ?_, ?_, ?_⟩
    · rw [hpq]
      exact (by decide : (400 : Nat) ≠ 200)
    · intro _
      exact ⟨msgs, hpq, by rw [hpq]; rfl⟩
    · intro hfalse
      exact absurd hfalse (by decide)
  | false =>
    have hpa := preloadOk_eq_false r hok
    have hload : quoteSchemaLoad r = .error .valueError := by
      simp [quoteSchemaLoad, hpa]
    have hpq := postQuote_valueErr t st r hload
    refine ⟨by rw [hpq], ?_, ?_, ?_⟩
    · rw [hpq]
      exact (by decide : (500 : Nat) ≠ 200)
    · intro htrue
      exact absurd htrue (by decide)
    · intro _
      rw [hpq]

/-- Witness: supplying the dump-only posted_at field gets the request
rejected with 400 and no insert. -/
theorem unknown_fields_rejected_witness :
    (postQuote 0 dbEmpty
        { content := some "Hi", author := some "Tim Peters", extra := ["posted_at"] }).2 = dbEmpty
    ∧ (postQuote 0 dbEmpty
        { content := some "Hi", author := some "Tim Peters", extra := ["posted_at"] }).1.1 ≠ 200
    ∧ (preloadOk { content := some "Hi", author := some "Tim Peters", extra := ["posted_at"] } = true →
        ∃ msgs, postQuote 0 dbEmpty
            { content := some "Hi", author := some "Tim Peters", extra := ["posted_at"] }
          = (handle_exception (InvalidPayload (msgsToJVal msgs) []), dbEmpty)
          ∧ (postQuote 0 dbEmpty
              { content := some "Hi", author := some "Tim Peters", extra := ["posted_at"] }).1.1 = 400)
    ∧ (preloadOk { content := some "Hi", author := some "Tim Peters", extra := ["posted_at"] } = false →
        (postQuote 0 dbEmpty
            { content := some "Hi", author := some "Tim Peters", extra := ["posted_at"] }).1.1 = 500) :=
  unknown_fields_rejected 0 dbEmpty
    { content := some "Hi", author := some "Tim Peters", extra := ["posted_at"] }
    (by decide)

/-- C6 counterexample: supplying the dump-only id field makes the otherwise
valid request fail with an Unknown field error instead of being ignored, so
no quote is created. -/
theorem unknown_fields_rejected_counterexample :
    (postQuote 0 dbEmpty { content := some "Hello", author := some "Tim Peters", extra := ["id"] })
      = ((400, .obj [("message", msgsToJVal [("id", "Unknown field.")]),
          ("status", .str "error")]), dbEmpty)
    ∧ (postQuote 0 dbEmpty
        { content := some "Hello", author := some "Tim Peters", extra := ["id"] }).2.quotes = [] :=
  ⟨rfl, rfl⟩

/-- C10: a truthy author string whose space-split does not have exactly two
tokens makes the pre-load transform raise ValueError - never a marshmallow
validation failure - and the request is answered by the generic 500 handler
rather than an InvalidPayload 400. -/
theorem author_split_value_failure (t : Nat) (st : DB) (r : QuoteRequest) (s : String)
    (ha : r.author = some s) (hs : s ≠ "") (hlen : (pySplit s).length ≠ 2) :
    process_author r = .error .valueError
    ∧ quoteSchemaLoad r = .error .valueError
    ∧ (∀ msgs, quoteSchemaLoad r ≠ .error (.validationError msgs))
    ∧ postQuote t st r
      = ((500, .obj [("message", .str "Something went wrong."), ("status", .str "error")]), st) := by
  have hpa : process_author r = .error .valueError := by
    simp only [process_author, ha]
    rw [if_neg hs]
    cases hsp : pySplit s with
    | nil => rfl
    | cons x ts =>
      cases ts with
      | nil => rfl
      | cons y ts2 =>
        cases ts2 with
        | nil => exact absurd (show (pySplit s).length = 2 by rw [hsp]; rfl) hlen
        | cons z ts3 => rfl
  have hload : quoteSchemaLoad r = .error .valueError := by
    simp [quoteSchemaLoad, hpa]
  refine ⟨hpa, hload, ?_, postQuote_valueErr t st r hload⟩
  intro msgs hcontra
  rw [hload] at hcontra
  exact LoadErr.noConfusion (Except.error.inj hcontra)

/-- Witness: the spaceless author string Cher raises the ValueError path and
the request is answered 500. -/
theorem author_split_value_failure_witness :
    process_author { content := some "Hi", author := some "Cher", extra := [] }
      = .error .valueError
    ∧ quoteSchemaLoad { content := some "Hi", author := some "Cher", extra := [] }
      = .error .valueError
    ∧ (∀ msgs, quoteSchemaLoad { content := some "Hi", author := some "Cher", extra := [] }
        ≠ .error (.validationError msgs))
    ∧ postQuote 0 dbEmpty { content := some "Hi", author := some "Cher", extra := [] }
      = ((500, .obj [("message", .str "Something went wrong."), ("status", .str "error")]), dbEmpty) :=
  author_split_value_failure 0 dbEmpty
    { content := some "Hi", author := some "Cher", extra := [] } "Cher"
    rfl (by decide) (by decide)

end QuotesApp
